import Mathlib

/-
Verification development for the SETS repository (a PySide6 build-planning
tool). The Python sources are shallowly embedded below: pure computations
become Lean functions, Python scalar values that can be either strings or
numbers are modelled by the tagged type `PyVal`, fallible code returns
`Except`/`Option`, and the external platform services (Qt, tkinter, the
filesystem) enter as explicit inputs of the embedded functions.
-/

/-- Model of a dynamically typed Python scalar value: a string, an integer,
or a float. Floats are modelled as rationals; no claim depends on binary
floating-point rounding. -/
inductive PyVal where
  | str (s : String)
  | int (n : Int)
  | float (q : ℚ)
  deriving DecidableEq, Repr

/-- Python `==` on `PyVal`: strings never equal numbers, `int` and `float`
compare numerically (as in Python). -/
def pyEq : PyVal → PyVal → Bool
  | .str a, .str b => a == b
  | .int a, .int b => a == b
  | .float a, .float b => a == b
  | .int a, .float b => (a : ℚ) == b
  | .float a, .int b => a == (b : ℚ)
  | _, _ => false

/-- Python truthiness of a `PyVal`: empty string and zero are falsy. -/
def pyTruthy : PyVal → Bool
  | .str s => !(s == "")
  | .int n => !(n == 0)
  | .float q => !(q == 0)

/-- Python `str()` of a `PyVal`. The float case is a stand-in rendering
(exact Python float repr is a platform detail no claim depends on). -/
def pyStrOf : PyVal → String
  | .str s => s
  | .int n => toString n
  | .float q => toString q

/-- Python `round(x)` (round half to even). -/
def pyRound (q : ℚ) : Int :=
  let f := ⌊q⌋
  let r := q - (f : ℚ)
  if r < 1 / 2 then f
  else if 1 / 2 < r then f + 1
  else if f % 2 = 0 then f else f + 1

/-- Python `int(x)` on a float: truncation toward zero. -/
def pyInt (q : ℚ) : Int :=
  if q < 0 then ⌈q⌉ else ⌊q⌋

/-- First-match association lookup, modelling Python dict access for a dict
represented as its entry list. -/
def dictGet {α : Type} : List (String × α) → String → Option α
  | [], _ => none
  | kv :: rest, key => if key = kv.1 then some kv.2 else dictGet rest key

/-
Embedding of src/logs/snapshot.py (the diagnostics snapshot utility).
Every `try`-block probe becomes an `Option` input: `some` carries the values
the probed platform calls returned, `none` means the block raised.
-/

/-- Embeds snapshot.py lines 8-13: the `try` block reading
`sys.getwindowsversion().build` and the Windows release override. The input
`release0` is the value of `platform.release()` (a string at runtime, but
kept as a `PyVal` because the code compares it against the integer 10).
Returns the resulting (release, build) pair. -/
def windowsBuildProbe (system : String) (release0 : PyVal) (winProbe : Option Int) :
    PyVal × PyVal :=
  match winProbe with
  | none => (release0, PyVal.str "")
  | some b =>
      if system == "Windows" && pyEq release0 (PyVal.int 10) && decide (22000 ≤ b) then
        (PyVal.int 11, PyVal.int b)
      else
        (release0, PyVal.int b)

/-- Values the tkinter probe (snapshot.py lines 15-21) obtains from the
platform when it does not raise. -/
structure TkSuccess where
  patchlevel : String
  screen_width : Int
  screen_height : Int
  fpixels : ℚ
  deriving DecidableEq, Repr

/-- Embeds snapshot.py lines 15-26: the tkinter/display probe. Returns
(tkinter_version, tk_screen_geometry, dpi, factor); on failure the except
branch assigns the literal sentinels of lines 23-26. -/
def tkProbeRun : Option TkSuccess → String × String × PyVal × PyVal
  | some t =>
      let dpi : ℚ := (pyRound t.fpixels : ℤ)
      (t.patchlevel,
       toString t.screen_width ++ "x" ++ toString t.screen_height,
       PyVal.float dpi,
       PyVal.float (dpi / 96))
  | none => ("fail", "fail", PyVal.str "", PyVal.str "")

/-- Turns the rows read from /etc/os-release into (key, value) pairs
(snapshot.py lines 33-34); `none` when some row lacks two fields, in which
case the subscript raises inside the `try` block. -/
def rowPairs : List (List String) → Option (List (String × String))
  | [] => some []
  | (k :: v :: _) :: rest => (rowPairs rest).map (fun ps => (k, v) :: ps)
  | _ => none

/-- Embeds snapshot.py lines 28-37: the distribution probe. Python dict
assignment is last-write-wins, hence the lookup on the reversed entry list.
A missing NAME/VERSION key raises KeyError inside the `try`, yielding the
empty string. -/
def distProbeRun : Option (List (List String)) → String
  | none => ""
  | some rows =>
      match rowPairs rows with
      | none => ""
      | some ps =>
          match dictGet ps.reverse "NAME", dictGet ps.reverse "VERSION" with
          | some n, some v => n ++ " " ++ v
          | _, _ => ""

/-- Embeds the PIL probe (snapshot.py lines 45-49) and the numpy probe
(lines 51-55), which have the same shape: the version string on success,
the literal `'fail'` on exception. -/
def libVersionProbe : Option String → String
  | some v => v
  | none => "fail"

/-- Embeds snapshot.py lines 39-43: assembly of the OS line. -/
def osText (system : String) (release build : PyVal) (distribution : String) : String :=
  let t1 := system ++ " " ++ pyStrOf release
  let t2 := if pyTruthy build then t1 ++ " (" ++ pyStrOf build ++ ")" else t1
  if pyTruthy (PyVal.str distribution) then t2 ++ " (" ++ distribution ++ ")" else t2

/-- Embeds snapshot.py lines 69-72: the label-width fold starting at 5. -/
def minTitleWidth (keys : List String) : Nat :=
  keys.foldl (fun m k => if m < k.length then k.length else m) 5

/-- Right-aligns `s` in a field of `width` characters, as Python
format `{:>width}` does. -/
def rightAlign (width : Nat) (s : String) : String :=
  String.mk (List.replicate (width - s.length) ' ') ++ s

/-- One printed report row (snapshot.py line 75). -/
def reportRow (width : Nat) (label value : String) : String :=
  rightAlign width label ++ ": " ++ value

/-- One parenthesized module entry of the modules line (snapshot.py line 80). -/
def parenPair (k v : String) : String :=
  "(" ++ k ++ " " ++ v ++ ") "

/-- The platform-dependent inputs of one run of the snapshot script. -/
structure SnapshotInput where
  python_version : String
  system : String
  release0 : PyVal
  winProbe : Option Int
  tkProbe : Option TkSuccess
  distProbe : Option (List (List String))
  pilProbe : Option String
  numpyProbe : Option String
  deriving Repr

/-- All module-level variables of one run of snapshot.py, plus the printed
report lines. -/
structure SnapshotRun where
  python_version : String
  release : PyVal
  build : PyVal
  tkinter_version : String
  tk_screen_geometry : String
  dpi : PyVal
  factor : PyVal
  distribution : String
  PIL_version : String
  numpy_version : String
  os_text : String
  lines : List String
  deriving Repr

/-- Embeds a full run of src/logs/snapshot.py over the given platform
inputs, producing every module-level variable and the four printed lines
(three snapshot rows and the modules line). -/
def runSnapshot (inp : SnapshotInput) : SnapshotRun :=
  let pv := (inp.python_version.replace "\r" "").replace "\n" ""
  let rb := windowsBuildProbe inp.system inp.release0 inp.winProbe
  let tkr := tkProbeRun inp.tkProbe
  let distribution := distProbeRun inp.distProbe
  let pilv := libVersionProbe inp.pilProbe
  let npv := libVersionProbe inp.numpyProbe
  let ot := osText inp.system rb.1 rb.2 distribution
  let screenValue :=
    tkr.2.1 ++ " (" ++ pyStrOf tkr.2.2.1 ++ "dpi x" ++ pyStrOf tkr.2.2.2 ++ ")"
  let snapshotPairs : List (String × String) :=
    [("python", pv), ("OS", ot), ("screen-dpi", screenValue)]
  let modulePairs : List (String × String) :=
    [("tkinter", tkr.1), ("Pillow", pilv), ("numpy", npv)]
  let mtw := minTitleWidth (snapshotPairs.map (fun kv => kv.1))
  let modulesLine :=
    rightAlign (mtw + 1) "modules" ++ ": " ++
      (modulePairs.foldl (fun acc kv => acc ++ parenPair kv.1 kv.2) "")
  { python_version := pv
    release := rb.1
    build := rb.2
    tkinter_version := tkr.1
    tk_screen_geometry := tkr.2.1
    dpi := tkr.2.2.1
    factor := tkr.2.2.2
    distribution := distribution
    PIL_version := pilv
    numpy_version := npv
    os_text := ot
    lines := snapshotPairs.map (fun kv => reportRow (mtw + 1) kv.1 kv.2) ++ [modulesLine] }

/-
Embedding of src/src/widgets.py (the widget library).
-/

/-- Qt mouse buttons relevant to ItemButton.mouseReleaseEvent. -/
inductive MouseButton where
  | left
  | right
  | middle
  deriving DecidableEq, Repr

/-- Embeds ItemButton.mouseReleaseEvent (widgets.py lines 262-271). `x`, `y`
are the release event's local coordinates, `width`/`height` the widget's
dimensions. Returns which signals are emitted: (clicked, rightclicked). -/
def itemButtonMouseRelease (width height : ℚ) (button : MouseButton) (x y : ℚ) :
    Bool × Bool :=
  if button = MouseButton.left ∧ x < width ∧ y < height then (true, false)
  else if button = MouseButton.right ∧ x < width ∧ y < height then (false, true)
  else (false, false)

/-- Spec-side predicate, following the claim's wording: the coordinates lie
inside the button's bounding box, i.e. in [0, width) × [0, height) in local
coordinates. -/
def inBoundingBox (width height x y : ℚ) : Prop :=
  0 ≤ x ∧ x < width ∧ 0 ≤ y ∧ y < height

instance (width height x y : ℚ) : Decidable (inBoundingBox width height x y) := by
  unfold inBoundingBox
  infer_instance

/-- Embeds ItemButton.__init__'s superclass call (widgets.py line 222),
which is written `super().__init__(*args, *kwargs)`: the kwargs dict is
unpacked with a single star, i.e. positionally, and iterating a dict yields
its keys in insertion order. The superclass therefore receives the
positional args followed by the keyword NAMES, and no keyword arguments.
Result: (positional arguments received, keyword arguments received). -/
def itemButtonSuperCall (args : List PyVal) (kwargs : List (String × PyVal)) :
    List PyVal × List (String × PyVal) :=
  (args ++ kwargs.map (fun kv => PyVal.str kv.1), [])

/-- Spec-side: what a plain forwarding QFrame call `QFrame(*args, **kwargs)`
would deliver to the superclass. -/
def plainQFrameCall (args : List PyVal) (kwargs : List (String × PyVal)) :
    List PyVal × List (String × PyVal) :=
  (args, kwargs)

/-- Model of a QImage: null flag and pixel dimensions. -/
structure QImg where
  isNull : Bool
  width : Int
  height : Int
  deriving DecidableEq, Repr

/-- The image `QImage()` constructs: null, zero-sized. -/
def nullQImg : QImg := { isNull := true, width := 0, height := 0 }

/-- State of an ImageLabel: the image `p` and the stored aspect numerator
and denominator `_w`, `_h` (widgets.py lines 167-176). -/
structure ImageLabelState where
  p : QImg
  _w : Int
  _h : Int
  deriving DecidableEq, Repr

/-- Embeds ImageLabel.__init__ (widgets.py lines 167-176). `loaded` models
the image `QImage(path)` yields for a non-empty path. -/
def imageLabelInit (path : String) (loaded : QImg) (aspect : Int × Int) :
    ImageLabelState :=
  { p := if path = "" then nullQImg else loaded
    _w := aspect.1
    _h := aspect.2 }

/-- Embeds ImageLabel.set_image (widgets.py lines 178-182): replaces the
image and copies its dimensions into the aspect fields, then repaints. -/
def set_image (_st : ImageLabelState) (img : QImg) : ImageLabelState :=
  { p := img, _w := img.width, _h := img.height }

/-- Python runtime errors the embedded paint handlers can raise. -/
inductive PyError where
  | zeroDivision
  deriving DecidableEq, Repr

/-- Outputs of ImageLabel.paintEvent when it draws: the rectangle the image
is stretched into and the height the widget is fixed to. -/
structure LabelPaint where
  rectW : Int
  rectH : Int
  fixedHeight : Int
  deriving DecidableEq, Repr

/-- Embeds ImageLabel.paintEvent (widgets.py lines 184-192) at container
width `cw` (the value of self.width()). `none` when the image is null (no
drawing); `h = int(w * self._h / self._w)` raises ZeroDivisionError when
`_w` is zero. -/
def imageLabelPaint (st : ImageLabelState) (cw : Int) :
    Except PyError (Option LabelPaint) :=
  if st.p.isNull then Except.ok none
  else if st._w = 0 then Except.error PyError.zeroDivision
  else
    let w : Int := cw
    let h : Int := pyInt ((((w * st._h : Int)) : ℚ) / (st._w : ℚ))
    Except.ok (some { rectW := w, rectH := h, fixedHeight := h })

/-- Python float floor division `a // b`. -/
def pyFloorDivQ (a b : ℚ) : ℚ :=
  ((⌊a / b⌋ : ℤ) : ℚ)

/-- Outputs of ShipImage.paintEvent when it draws: the superclass paint
output, the computed scale factor, the draw position of the scaled image,
the width passed to scaledToWidth, the scaled image, and the height the
widget is finally fixed to. -/
structure ShipPaint where
  labelPart : LabelPaint
  scale_factor : ℚ
  drawX : ℚ
  drawY : ℚ
  scaledWidthArg : ℚ
  scaledImage : QImg
  fixedHeight : Int
  deriving DecidableEq, Repr

/-- Embeds ShipImage.paintEvent (widgets.py lines 195-208) at container box
(cw, ch) (the values self.width() and self.height() return during the paint
call; the geometry does not change synchronously mid-paint). The Qt
platform service QImage.scaledToWidth is passed in as `scaledToWidth`. -/
def shipImagePaint (scaledToWidth : QImg → ℚ → QImg) (st : ImageLabelState)
    (cw ch : Int) : Except PyError (Option ShipPaint) :=
  match imageLabelPaint st cw with
  | Except.error e => Except.error e
  | Except.ok none => Except.ok none
  | Except.ok (some lp) =>
      if st._h = 0 then Except.error PyError.zeroDivision
      else
        let scale_factor : ℚ := min ((cw : ℚ) / (st._w : ℚ)) ((ch : ℚ) / (st._h : ℚ))
        let w : ℚ := (st._w : ℚ) * scale_factor
        let h : ℚ := (st._h : ℚ) * scale_factor
        let new_p := scaledToWidth st.p w
        Except.ok (some
          { labelPart := lp
            scale_factor := scale_factor
            drawX := pyFloorDivQ |w - (cw : ℚ)| 2
            drawY := pyFloorDivQ |h - (ch : ℚ)| 2
            scaledWidthArg := w
            scaledImage := new_p
            fixedHeight := new_p.height })

/-
Embedding of src/src/app.py (the application shell SETS).
-/

/-- Embeds QSettings.value(key, default=None): the stored value, if any.
The store is modelled as an entry list where newer entries shadow older
ones. -/
def settingsValue {α : Type} (store : List (String × α)) (k : String) : Option α :=
  dictGet store k

/-- Embeds QSettings.setValue: the new entry shadows any previous one. -/
def setValue {α : Type} (store : List (String × α)) (k : String) (v : α) :
    List (String × α) :=
  (k, v) :: store

/-- Embeds SETS.init_settings (app.py lines 109-117): for every entry of
config['default_settings'], the default is written only when the key has no
stored value yet. -/
def init_settings {α : Type} (default_settings : List (String × α))
    (store : List (String × α)) : List (String × α) :=
  default_settings.foldl
    (fun s kv => if (settingsValue s kv.1).isSome then s else setValue s kv.1 kv.2)
    store

/-- Content of a file in the modelled filesystem; store_json of the empty
build writes the distinguished `emptyBuildJson` document. -/
inductive FsContent where
  | emptyBuildJson
  | other (s : String)
  deriving DecidableEq, Repr

/-- Modelled filesystem: existing folders and files with contents. -/
structure AppFs where
  folders : List String
  files : List (String × FsContent)
  deriving Repr

/-- Embeds iofunc.create_folder as specified: ensure the directory exists;
idempotent. -/
def create_folder (fs : AppFs) (p : String) : AppFs :=
  { fs with folders := if fs.folders.contains p then fs.folders else p :: fs.folders }

/-- Embeds iofunc.store_json as specified: write the document, overwriting
any existing file at the path. -/
def store_json (fs : AppFs) (content : FsContent) (path : String) : AppFs :=
  { fs with files := (path, content) :: fs.files }

/-- Embeds os.path.exists over the modelled filesystem. -/
def os_path_exists (fs : AppFs) (p : String) : Bool :=
  (dictGet fs.files p).isSome || fs.folders.contains p

/-- The resolved config paths after init_config ran: the absolute config
folder, the five resolved subfolders, and config['autosave_filename'],
which init_config overwrote with the full autosave path. -/
structure ConfigPaths where
  config_folder_path : String
  library_folder : String
  cache_folder : String
  cargo_folder : String
  images_folder : String
  ship_images_folder : String
  autosave_filename : String
  deriving Repr

/-- Embeds app.py line 128, the autosave-path rewrite in SETS.init_config:
`config['autosave_filename'] = f'{config_folder}\\{filename}'` — the config
folder, a literal backslash, and the configured filename. -/
def autosavePath (config_folder : String) (autosave_filename : String) : String :=
  config_folder ++ "\\" ++ autosave_filename

/-- Spec-side path, following the claim's notation
<config_folder>/<autosave_filename> with a forward-slash join. -/
def specAutosavePath (config_folder : String) (autosave_filename : String) : String :=
  config_folder ++ "/" ++ autosave_filename

/-- Embeds SETS.init_environment (app.py lines 133-144): create the six
required folders, then seed the autosave file with the empty build if no
file exists at the autosave path. -/
def init_environment (cfg : ConfigPaths) (fs0 : AppFs) : AppFs :=
  let fs1 := create_folder fs0 cfg.config_folder_path
  let fs2 := create_folder fs1 cfg.library_folder
  let fs3 := create_folder fs2 cfg.cache_folder
  let fs4 := create_folder fs3 cfg.cargo_folder
  let fs5 := create_folder fs4 cfg.images_folder
  let fs6 := create_folder fs5 cfg.ship_images_folder
  if os_path_exists fs6 cfg.autosave_filename then fs6
  else store_json fs6 FsContent.emptyBuildJson cfg.autosave_filename

/-- The externally observable actions SETS.main_window_close_callback
performs (app.py lines 146-153). -/
inductive CloseAction where
  | saveGeometryCall
  | settingsSetGeometry
  | autosaveBuild
  | acceptEvent
  deriving DecidableEq, BEq, Repr

/-- Embeds SETS.main_window_close_callback (app.py lines 146-153) as its
straight-line action trace: read the window geometry, persist it to
settings, autosave the build, accept the close event. -/
def main_window_close_callback : List CloseAction :=
  [CloseAction.saveGeometryCall, CloseAction.settingsSetGeometry,
   CloseAction.autosaveBuild, CloseAction.acceptEvent]

/-- Index of the first occurrence of `a` (length of the list when absent). -/
def idxOfD {α : Type} [DecidableEq α] : List α → α → Nat
  | [], _ => 0
  | x :: xs, a => if x = a then 0 else idxOfD xs a + 1

/-- Embeds app.py lines 130-131: the scaled box dimensions
`box_width * ui_scale * 0.8` and `box_height * ui_scale * 0.8` (the float
literal 0.8 is the rational 4/5 here). -/
def scaledBoxDims (box_width box_height ui_scale : ℚ) : ℚ × ℚ :=
  (box_width * ui_scale * (4 / 5), box_height * ui_scale * (4 / 5))

/-
Theorems. One theorem per claim (plus counterexamples/witnesses where the
claim status requires them).
-/

/-- C1: evaluation at the failing input. With host facts system = "Windows",
platform release "10" (platform.release returns a string) and Windows build
22000, the snapshot utility leaves the computed release at "10": the guard
at snapshot.py line 10 compares the string release against the integer 10,
which is false in Python, so the claimed override to "11" never happens. -/
theorem c1_windows_release_override_never_fires :
    windowsBuildProbe "Windows" (PyVal.str "10") (some 22000) =
      (PyVal.str "10", PyVal.int 22000) ∧
    (∀ s : String, ∀ sys : String, ∀ pr : Option Int,
      (windowsBuildProbe sys (PyVal.str s) pr).1 = PyVal.str s) := by
  refine ⟨rfl, fun s sys pr => ?_⟩
  cases pr with
  | none => rfl
  | some b =>
      simp only [windowsBuildProbe, pyEq, Bool.and_eq_true]
      split
      · rename_i h
        simp [pyEq] at h
      · rfl

/-- C7: in the close callback's action trace, the window geometry is
persisted to settings and the build autosaved, in that order, and the close
event is accepted strictly after both; the accept is the unique last action,
so accepting never precedes either write. -/
theorem c7_close_persists_before_accept :
    idxOfD main_window_close_callback CloseAction.settingsSetGeometry <
      idxOfD main_window_close_callback CloseAction.autosaveBuild ∧
    idxOfD main_window_close_callback CloseAction.autosaveBuild <
      idxOfD main_window_close_callback CloseAction.acceptEvent ∧
    main_window_close_callback.count CloseAction.settingsSetGeometry = 1 ∧
    main_window_close_callback.count CloseAction.autosaveBuild = 1 ∧
    main_window_close_callback.count CloseAction.acceptEvent = 1 ∧
    main_window_close_callback.getLast? = some CloseAction.acceptEvent := by
  decide

/-- C10: the shell's scaled box dimensions equal the configured base
box_width/box_height times the ui_scale setting times the fixed constant
0.8 (the rational 4/5), and, whenever the base-times-scale product is
nonzero, differ from scaling by the UI-scale factor alone. -/
theorem c10_box_dims_scaled_by_four_fifths (box_width box_height ui_scale : ℚ) :
    scaledBoxDims box_width box_height ui_scale =
      (box_width * ui_scale * (4 / 5), box_height * ui_scale * (4 / 5)) ∧
    (box_width * ui_scale ≠ 0 →
      (scaledBoxDims box_width box_height ui_scale).1 ≠ box_width * ui_scale) ∧
    (box_height * ui_scale ≠ 0 →
      (scaledBoxDims box_width box_height ui_scale).2 ≠ box_height * ui_scale) := by
  refine ⟨rfl, fun h hc => h ?_, fun h hc => h ?_⟩
  · have hc1 : box_width * ui_scale * (4 / 5) = box_width * ui_scale * 1 := by
      rw [mul_one]; exact hc
    by_contra hne
    have := mul_left_cancel₀ hne hc1
    norm_num at this
  · have hc1 : box_height * ui_scale * (4 / 5) = box_height * ui_scale * 1 := by
      rw [mul_one]; exact hc
    by_contra hne
    have := mul_left_cancel₀ hne hc1
    norm_num at this

/-- C10 witness: at base dimensions (10, 20) and ui_scale 1 the computed box
is (8, 16), which differs from scaling by ui_scale alone. -/
theorem c10_box_dims_witness :
    scaledBoxDims 10 20 1 = (10 * 1 * (4 / 5), 20 * 1 * (4 / 5)) ∧
    (scaledBoxDims 10 20 1).1 ≠ 10 * 1 ∧
    (scaledBoxDims 10 20 1).2 ≠ 20 * 1 := by
  obtain ⟨h1, h2, h3⟩ := c10_box_dims_scaled_by_four_fifths 10 20 1
  exact ⟨h1, h2 (by norm_num), h3 (by norm_num)⟩

/-- C8: ItemButton's constructor hands its superclass the positional
arguments followed by the NAMES of the extra keyword arguments (the kwargs
dict unpacked positionally) and no keyword arguments at all; with at least
one extra keyword argument this differs from a plain forwarding QFrame call
(the keyword/value pairs are not delivered), and with none it coincides
with a plain QFrame call. -/
theorem c8_item_button_unpacks_kwargs_positionally
    (args : List PyVal) (kwargs : List (String × PyVal)) :
    itemButtonSuperCall args kwargs =
      (args ++ kwargs.map (fun kv => PyVal.str kv.1), []) ∧
    (kwargs ≠ [] →
      (itemButtonSuperCall args kwargs).1 ≠ args ∧
      (itemButtonSuperCall args kwargs).2 ≠ kwargs ∧
      itemButtonSuperCall args kwargs ≠ plainQFrameCall args kwargs) ∧
    (kwargs = [] →
      itemButtonSuperCall args kwargs = plainQFrameCall args kwargs) := by
  refine ⟨rfl, fun hk => ⟨?_, ?_, ?_⟩, fun hk => ?_⟩
  · intro hc
    have hlen := congrArg List.length hc
    simp only [itemButtonSuperCall, List.length_append, List.length_map] at hlen
    have : kwargs.length = 0 := by omega
    exact hk (List.eq_nil_of_length_eq_zero this)
  · intro hc
    simp only [itemButtonSuperCall] at hc
    exact hk hc.symm
  · intro hc
    have hsnd := congrArg Prod.snd hc
    simp only [itemButtonSuperCall, plainQFrameCall] at hsnd
    exact hk hsnd.symm
  · subst hk
    simp [itemButtonSuperCall, plainQFrameCall]

/-- C8 witness: one extra keyword argument parent=1 reaches QFrame as the
positional string "parent", not as a keyword/value pair; with no extra
keyword arguments the call is plain. -/
theorem c8_item_button_witness :
    itemButtonSuperCall [] [("parent", PyVal.int 1)] =
      ([PyVal.str "parent"], []) ∧
    itemButtonSuperCall [] [("parent", PyVal.int 1)] ≠
      plainQFrameCall [] [("parent", PyVal.int 1)] ∧
    itemButtonSuperCall [PyVal.int 7] [] = plainQFrameCall [PyVal.int 7] [] := by
  obtain ⟨h1, h2, h3⟩ :=
    c8_item_button_unpacks_kwargs_positionally [] [("parent", PyVal.int 1)]
  exact ⟨h1, (h2 (by simp)).2.2,
    (c8_item_button_unpacks_kwargs_positionally [PyVal.int 7] []).2.2 rfl⟩

/-- C3 counterexample: the autosave path init_config computes joins the
config folder and the filename with a literal backslash, so it differs from
the claimed <config_folder>/<autosave_filename> forward-slash path. -/
theorem c3_backslash_join_counterexample :
    autosavePath "cfg" "autosave.json" = "cfg\\autosave.json" ∧
    autosavePath "cfg" "autosave.json" ≠ specAutosavePath "cfg" "autosave.json" := by
  exact ⟨rfl, by decide⟩

/-- Files are untouched by create_folder. -/
theorem create_folder_files (fs : AppFs) (p : String) :
    (create_folder fs p).files = fs.files := rfl

/-- Folder membership of a different path is untouched by create_folder. -/
theorem contains_create_folder (fs : AppFs) (p q : String) (h : q ≠ p) :
    (create_folder fs p).folders.contains q = fs.folders.contains q := by
  unfold create_folder
  by_cases hc : fs.folders.contains p = true
  · rw [if_pos hc]
  · rw [if_neg hc]
    simp only [List.contains_cons, beq_eq_false_iff_ne.mpr h, Bool.false_or]

/-- C3 amended: the autosave path used by the shell is the config folder
path, a literal backslash, and the configured autosave filename; on startup
init_environment seeds the autosave file with the empty build when no file
or folder exists at that path. -/
theorem c3_autosave_backslash_path_and_seed (cfg : ConfigPaths) (fs : AppFs)
    (hfile : dictGet fs.files cfg.autosave_filename = none)
    (hfold : fs.folders.contains cfg.autosave_filename = false)
    (h1 : cfg.autosave_filename ≠ cfg.config_folder_path)
    (h2 : cfg.autosave_filename ≠ cfg.library_folder)
    (h3 : cfg.autosave_filename ≠ cfg.cache_folder)
    (h4 : cfg.autosave_filename ≠ cfg.cargo_folder)
    (h5 : cfg.autosave_filename ≠ cfg.images_folder)
    (h6 : cfg.autosave_filename ≠ cfg.ship_images_folder) :
    (∀ folder filename : String,
      autosavePath folder filename = folder ++ "\\" ++ filename) ∧
    dictGet (init_environment cfg fs).files cfg.autosave_filename =
      some FsContent.emptyBuildJson := by
  refine ⟨fun folder filename => rfl, ?_⟩
  have hkey : os_path_exists
      (create_folder (create_folder (create_folder (create_folder (create_folder
        (create_folder fs cfg.config_folder_path) cfg.library_folder)
        cfg.cache_folder) cfg.cargo_folder) cfg.images_folder)
        cfg.ship_images_folder) cfg.autosave_filename = false := by
    unfold os_path_exists
    rw [create_folder_files, create_folder_files, create_folder_files,
        create_folder_files, create_folder_files, create_folder_files,
        contains_create_folder _ _ _ h6, contains_create_folder _ _ _ h5,
        contains_create_folder _ _ _ h4, contains_create_folder _ _ _ h3,
        contains_create_folder _ _ _ h2, contains_create_folder _ _ _ h1,
        hfile, hfold]
    rfl
  show dictGet (if os_path_exists _ cfg.autosave_filename then _
      else store_json _ FsContent.emptyBuildJson cfg.autosave_filename).files
      cfg.autosave_filename = some FsContent.emptyBuildJson
  rw [if_neg (by rw [hkey]; exact Bool.false_ne_true)]
  simp [store_json, dictGet]

/-- C3 witness: a concrete first-run filesystem with no autosave file: after
init_environment, the file at the backslash-joined autosave path holds the
empty build. -/
theorem c3_autosave_witness :
    autosavePath "cfg" "sets.json" = "cfg" ++ "\\" ++ "sets.json" ∧
    dictGet (init_environment
      { config_folder_path := "cfg", library_folder := "cfg\\library",
        cache_folder := "cfg\\cache", cargo_folder := "cfg\\cargo",
        images_folder := "cfg\\images", ship_images_folder := "cfg\\ship_images",
        autosave_filename := autosavePath "cfg" "sets.json" }
      { folders := [], files := [] }).files
      (autosavePath "cfg" "sets.json") = some FsContent.emptyBuildJson := by
  obtain ⟨hp, hs⟩ := c3_autosave_backslash_path_and_seed
    { config_folder_path := "cfg", library_folder := "cfg\\library",
      cache_folder := "cfg\\cache", cargo_folder := "cfg\\cargo",
      images_folder := "cfg\\images", ship_images_folder := "cfg\\ship_images",
      autosave_filename := autosavePath "cfg" "sets.json" }
    { folders := [], files := [] }
    rfl rfl (by decide) (by decide) (by decide) (by decide) (by decide) (by decide)
  exact ⟨hp "cfg" "sets.json", hs⟩

/-- After init_settings, a key's loaded value is its previously stored value
when one exists, and otherwise the configured default for that key. -/
theorem settingsValue_init_settings {α : Type} (defaults : List (String × α)) :
    ∀ (store : List (String × α)) (k : String),
    settingsValue (init_settings defaults store) k =
      (settingsValue store k).or (dictGet defaults k) := by
  induction defaults with
  | nil =>
      intro store k
      simp [init_settings, dictGet, Option.or_none]
  | cons kv rest ih =>
      intro store k
      have hstep : init_settings (kv :: rest) store =
          init_settings rest
            (if (settingsValue store kv.1).isSome then store
             else setValue store kv.1 kv.2) := rfl
      rw [hstep]
      by_cases hk0 : (settingsValue store kv.1).isSome
      · rw [if_pos hk0, ih]
        by_cases hkk : k = kv.1
        · subst hkk
          obtain ⟨v0, hv0⟩ := Option.isSome_iff_exists.mp hk0
          simp [dictGet, hv0, Option.or]
        · simp [dictGet, hkk]
      · rw [if_neg hk0, ih]
        have hnone : settingsValue store kv.1 = none :=
          Option.not_isSome_iff_eq_none.mp hk0
        by_cases hkk : k = kv.1
        · subst hkk
          simp [setValue, settingsValue, dictGet, hnone] at hnone ⊢
          simp [Option.or, hnone]
        · simp [setValue, settingsValue, dictGet, hkk]

/-- C6: settings initialization: starting from an empty store (first run,
no settings file), every key of the configured defaults map loads with its
default value; and a key that already has a stored value (e.g. a previously
changed ui_scale) keeps that value and is not reset to the default. -/
theorem c6_init_settings_defaults_and_persistence {α : Type}
    (defaults store : List (String × α)) (k : String) (v : α) :
    (store = [] →
      settingsValue (init_settings defaults store) k = dictGet defaults k) ∧
    (settingsValue store k = some v →
      settingsValue (init_settings defaults store) k = some v) := by
  constructor
  · intro h
    subst h
    rw [settingsValue_init_settings]
    simp [settingsValue, dictGet, Option.or]
  · intro h
    rw [settingsValue_init_settings, h]
    simp [Option.or]

/-- C6 witness: with defaults containing ui_scale = 1, a first run loads
ui_scale as 1; a later run whose store already holds ui_scale = 1.25 keeps
1.25. -/
theorem c6_init_settings_witness :
    settingsValue (init_settings [("ui_scale", (1 : ℚ))] []) "ui_scale" =
      some 1 ∧
    settingsValue (init_settings [("ui_scale", (1 : ℚ))]
      [("ui_scale", (5 / 4 : ℚ))]) "ui_scale" = some (5 / 4) := by
  constructor
  · exact ((c6_init_settings_defaults_and_persistence
      [("ui_scale", (1 : ℚ))] [] "ui_scale" 1).1 rfl).trans rfl
  · exact (c6_init_settings_defaults_and_persistence
      [("ui_scale", (1 : ℚ))] [("ui_scale", (5 / 4 : ℚ))] "ui_scale" (5 / 4)).2 rfl

/-- C2 counterexample: a left-button release at local position (-1, 5) on a
49×64 ItemButton is outside the button's bounding box, yet the handler
emits the clicked signal: the guard checks only the upper bounds and does
not exclude negative coordinates. -/
theorem c2_outside_bounds_still_clicks :
    ¬ inBoundingBox 49 64 (-1) 5 ∧
    itemButtonMouseRelease 49 64 MouseButton.left (-1) 5 = (true, false) := by
  constructor
  · intro h
    have h0 : (0 : ℚ) ≤ -1 := h.1
    norm_num at h0
  · rw [itemButtonMouseRelease, if_pos]
    exact ⟨rfl, by norm_num, by norm_num⟩

/-- C2 amended: the release guard checks only the upper bounds: a
left-button release with x < width and y < height (negative coordinates
included) emits exactly the clicked signal and a right-button release under
the same check emits exactly the right-clicked signal, while a release at
or beyond the width or the height bound emits neither signal. -/
theorem c2_click_discrimination (width height x y : ℚ) :
    (x < width → y < height →
      itemButtonMouseRelease width height MouseButton.left x y = (true, false) ∧
      itemButtonMouseRelease width height MouseButton.right x y = (false, true)) ∧
    (width ≤ x ∨ height ≤ y → ∀ button : MouseButton,
      itemButtonMouseRelease width height button x y = (false, false)) := by
  constructor
  · intro hx hy
    constructor
    · rw [itemButtonMouseRelease, if_pos ⟨rfl, hx, hy⟩]
    · rw [itemButtonMouseRelease, if_neg, if_pos ⟨rfl, hx, hy⟩]
      intro hc
      cases hc.1
  · intro h button
    have hfalse : ¬ (x < width ∧ y < height) := by
      rcases h with h | h
      · exact fun hc => absurd hc.1 (not_lt.mpr h)
      · exact fun hc => absurd hc.2 (not_lt.mpr h)
    have hL : ¬ (button = MouseButton.left ∧ x < width ∧ y < height) :=
      fun hc => hfalse hc.2
    have hR : ¬ (button = MouseButton.right ∧ x < width ∧ y < height) :=
      fun hc => hfalse hc.2
    rw [itemButtonMouseRelease, if_neg hL, if_neg hR]

/-- C2 witness: on a 49×64 button, a left release at (5, 5) emits exactly
clicked, a right release there emits exactly right-clicked, and a left
release dragged past the right edge (x = 50) emits neither. -/
theorem c2_click_discrimination_witness :
    itemButtonMouseRelease 49 64 MouseButton.left 5 5 = (true, false) ∧
    itemButtonMouseRelease 49 64 MouseButton.right 5 5 = (false, true) ∧
    itemButtonMouseRelease 49 64 MouseButton.left 50 5 = (false, false) := by
  obtain ⟨hin, _⟩ := c2_click_discrimination 49 64 5 5
  obtain ⟨h1, h2⟩ := hin (by norm_num) (by norm_num)
  exact ⟨h1, h2,
    (c2_click_discrimination 49 64 50 5).2 (Or.inl (by norm_num)) MouseButton.left⟩

/-- The all-probes-failing snapshot input used by the C4 theorems. -/
def snapAllFail : SnapshotInput :=
  { python_version := "3.11.0"
    system := "Windows"
    release0 := PyVal.str "10"
    winProbe := none
    tkProbe := none
    distProbe := none
    pilProbe := none
    numpyProbe := none }

/-- C4 counterexample: when the tkinter/display probe raises, the display
value tk_screen_geometry is set to the literal string 'fail' (snapshot.py
line 24), not to the empty string the claim prescribes for display
probes. -/
theorem c4_display_probe_fails_to_fail :
    (runSnapshot snapAllFail).tk_screen_geometry = "fail" ∧
    ("fail" : String) ≠ "" := by
  exact ⟨rfl, by decide⟩

/-- C4 amended: every probe is independently fault-tolerant: a failing
tkinter/display probe yields the literal 'fail' for tkinter_version AND for
tk_screen_geometry while dpi and factor become empty strings; a failing
distribution probe yields the empty string; failing PIL/numpy version
probes yield 'fail'; and the report is produced in full — three snapshot
rows plus the modules line — for every combination of probe outcomes. -/
theorem c4_probe_fault_tolerance (inp : SnapshotInput) :
    (inp.tkProbe = none →
      (runSnapshot inp).tkinter_version = "fail" ∧
      (runSnapshot inp).tk_screen_geometry = "fail" ∧
      (runSnapshot inp).dpi = PyVal.str "" ∧
      (runSnapshot inp).factor = PyVal.str "") ∧
    (inp.distProbe = none → (runSnapshot inp).distribution = "") ∧
    (inp.pilProbe = none → (runSnapshot inp).PIL_version = "fail") ∧
    (inp.numpyProbe = none → (runSnapshot inp).numpy_version = "fail") ∧
    (runSnapshot inp).lines.length = 4 := by
  refine ⟨fun h => ?_, fun h => ?_, fun h => ?_, fun h => ?_, ?_⟩
  · simp [runSnapshot, tkProbeRun, h]
  · simp [runSnapshot, distProbeRun, h]
  · simp [runSnapshot, libVersionProbe, h]
  · simp [runSnapshot, libVersionProbe, h]
  · simp [runSnapshot]

/-- C4 witness: with every probe raising, the run yields the sentinels of
the amended claim and still produces all four report lines. -/
theorem c4_probe_fault_tolerance_witness :
    (runSnapshot snapAllFail).tkinter_version = "fail" ∧
    (runSnapshot snapAllFail).dpi = PyVal.str "" ∧
    (runSnapshot snapAllFail).factor = PyVal.str "" ∧
    (runSnapshot snapAllFail).distribution = "" ∧
    (runSnapshot snapAllFail).PIL_version = "fail" ∧
    (runSnapshot snapAllFail).numpy_version = "fail" ∧
    (runSnapshot snapAllFail).lines.length = 4 := by
  obtain ⟨htk, hdist, hpil, hnp, hlen⟩ := c4_probe_fault_tolerance snapAllFail
  obtain ⟨h1, _, h3, h4⟩ := htk rfl
  exact ⟨h1, h3, h4, hdist rfl, hpil rfl, hnp rfl, hlen⟩

/-- C9: constructing an ImageLabel with a non-empty path and the default
aspect pair (0, 0) stores zero aspect fields, so the first paintEvent with
the loaded (non-null) image raises ZeroDivisionError; set_image is what
installs the image's own dimensions into the aspect fields, after which
painting succeeds using exactly those dimensions. -/
theorem c9_default_aspect_divides_by_zero (path : String) (img : QImg) (cw : Int)
    (hpath : path ≠ "") (himg : img.isNull = false) :
    (imageLabelInit path img (0, 0))._w = 0 ∧
    (imageLabelInit path img (0, 0))._h = 0 ∧
    imageLabelPaint (imageLabelInit path img (0, 0)) cw =
      Except.error PyError.zeroDivision ∧
    (∀ img2 : QImg, set_image (imageLabelInit path img (0, 0)) img2 =
      { p := img2, _w := img2.width, _h := img2.height }) ∧
    (∀ img2 : QImg, img2.isNull = false → img2.width ≠ 0 →
      imageLabelPaint (set_image (imageLabelInit path img (0, 0)) img2) cw =
        Except.ok (some
          { rectW := cw
            rectH := pyInt (((cw * img2.height : Int) : ℚ) / ((img2.width : Int) : ℚ))
            fixedHeight :=
              pyInt (((cw * img2.height : Int) : ℚ) / ((img2.width : Int) : ℚ)) })) := by
  refine ⟨rfl, rfl, ?_, fun img2 => rfl, fun img2 h2 hw2 => ?_⟩
  · have h1 : ¬ ((imageLabelInit path img (0, 0)).p.isNull = true) := by
      show ¬ ((if path = "" then nullQImg else img).isNull = true)
      rw [if_neg hpath, himg]
      exact Bool.false_ne_true
    unfold imageLabelPaint
    rw [if_neg h1, if_pos (show (imageLabelInit path img (0, 0))._w = 0 from rfl)]
  · have h1 : ¬ ((set_image (imageLabelInit path img (0, 0)) img2).p.isNull = true) := by
      show ¬ (img2.isNull = true)
      rw [h2]
      exact Bool.false_ne_true
    have h1w : ¬ ((set_image (imageLabelInit path img (0, 0)) img2)._w = 0) := hw2
    unfold imageLabelPaint
    rw [if_neg h1, if_neg h1w]
    rfl

/-- C9 witness: a 3×2 image loaded from a non-empty path with the default
aspect: the first paint raises ZeroDivisionError; after set_image of a 4×2
image, painting at container width 7 succeeds with the image's own
dimensions. -/
theorem c9_default_aspect_witness :
    imageLabelPaint (imageLabelInit "a.png" { isNull := false, width := 3, height := 2 }
      (0, 0)) 7 = Except.error PyError.zeroDivision ∧
    imageLabelPaint (set_image (imageLabelInit "a.png"
      { isNull := false, width := 3, height := 2 } (0, 0))
      { isNull := false, width := 4, height := 2 }) 7 =
      Except.ok (some { rectW := 7, rectH := 3, fixedHeight := 3 }) := by
  obtain ⟨_, _, h3, _, h5⟩ := c9_default_aspect_divides_by_zero "a.png"
    { isNull := false, width := 3, height := 2 } 7 (by decide) rfl
  refine ⟨h3, (h5 { isNull := false, width := 4, height := 2 } rfl (by decide)).trans ?_⟩
  have hv : pyInt (((7 * 2 : Int) : ℚ) / ((4 : Int) : ℚ)) = 3 := by
    norm_num [pyInt]
  rw [hv]

/-- The scale factor ShipImage.paintEvent computes (widgets.py line 203)
for aspect fields (W, H) in the container box (cw, ch). -/
def shipScaleFactor (W H cw ch : Int) : ℚ :=
  min ((cw : ℚ) / (W : ℚ)) ((ch : ℚ) / (H : ℚ))

/-- C5: for an ImageLabel whose image has intrinsic size (W, H) and whose
aspect fields are (W, H), painting at container width cw draws into the
rectangle (0, 0, cw, h) and fixes the widget height to h, where
h = floor(cw * H / W) is cw * H / W within integer rounding; a ShipImage
painted in container box (cw, ch) scales by the single factor
min(cw / W, ch / H) (the scaled image fits the box in both axes), draws
the scaled image at the centering offsets
(floor((cw - W * scale) / 2), floor((ch - H * scale) / 2)), and finally
fixes the widget height to the scaled image's height. -/
theorem c5_paint_aspect_and_fit (W H cw ch : Int) (f : QImg → ℚ → QImg)
    (hW : 0 < W) (hH : 0 < H) (hcw : 0 ≤ cw) (hch : 0 ≤ ch) :
    imageLabelPaint
      { p := { isNull := false, width := W, height := H }, _w := W, _h := H } cw =
      Except.ok (some
        { rectW := cw, rectH := ⌊((cw : ℚ) * (H : ℚ)) / (W : ℚ)⌋,
          fixedHeight := ⌊((cw : ℚ) * (H : ℚ)) / (W : ℚ)⌋ }) ∧
    |((⌊((cw : ℚ) * (H : ℚ)) / (W : ℚ)⌋ : ℤ) : ℚ) - (cw : ℚ) * (H : ℚ) / (W : ℚ)| < 1 ∧
    (W : ℚ) * shipScaleFactor W H cw ch ≤ (cw : ℚ) ∧
    (H : ℚ) * shipScaleFactor W H cw ch ≤ (ch : ℚ) ∧
    shipImagePaint f
      { p := { isNull := false, width := W, height := H }, _w := W, _h := H } cw ch =
      Except.ok (some
        { labelPart :=
            { rectW := cw, rectH := ⌊((cw : ℚ) * (H : ℚ)) / (W : ℚ)⌋,
              fixedHeight := ⌊((cw : ℚ) * (H : ℚ)) / (W : ℚ)⌋ }
          scale_factor := shipScaleFactor W H cw ch
          drawX := ((⌊((cw : ℚ) - (W : ℚ) * shipScaleFactor W H cw ch) / 2⌋ : ℤ) : ℚ)
          drawY := ((⌊((ch : ℚ) - (H : ℚ) * shipScaleFactor W H cw ch) / 2⌋ : ℤ) : ℚ)
          scaledWidthArg := (W : ℚ) * shipScaleFactor W H cw ch
          scaledImage := f { isNull := false, width := W, height := H }
            ((W : ℚ) * shipScaleFactor W H cw ch)
          fixedHeight := (f { isNull := false, width := W, height := H }
            ((W : ℚ) * shipScaleFactor W H cw ch)).height }) := by
  have hWq : (0 : ℚ) < (W : ℚ) := by exact_mod_cast hW
  have hHq : (0 : ℚ) < (H : ℚ) := by exact_mod_cast hH
  have hcwq : (0 : ℚ) ≤ (cw : ℚ) := by exact_mod_cast hcw
  have hchq : (0 : ℚ) ≤ (ch : ℚ) := by exact_mod_cast hch
  have hq0 : (0 : ℚ) ≤ (cw : ℚ) * (H : ℚ) / (W : ℚ) := by positivity
  have hkey : pyInt (((cw * H : Int) : ℚ) / ((W : Int) : ℚ)) =
      ⌊((cw : ℚ) * (H : ℚ)) / (W : ℚ)⌋ := by
    have hcast : ((cw * H : Int) : ℚ) = (cw : ℚ) * (H : ℚ) := by push_cast; ring
    rw [pyInt, hcast, if_neg (not_lt.mpr hq0)]
  have hlabel : imageLabelPaint
      { p := { isNull := false, width := W, height := H }, _w := W, _h := H } cw =
      Except.ok (some
        { rectW := cw, rectH := ⌊((cw : ℚ) * (H : ℚ)) / (W : ℚ)⌋,
          fixedHeight := ⌊((cw : ℚ) * (H : ℚ)) / (W : ℚ)⌋ }) := by
    unfold imageLabelPaint
    rw [if_neg (by exact Bool.false_ne_true), if_neg (by exact_mod_cast hW.ne')]
    simp only [hkey]
  have habs : |((⌊((cw : ℚ) * (H : ℚ)) / (W : ℚ)⌋ : ℤ) : ℚ) -
      (cw : ℚ) * (H : ℚ) / (W : ℚ)| < 1 := by
    rw [abs_lt]
    constructor
    · have := Int.sub_one_lt_floor ((cw : ℚ) * (H : ℚ) / (W : ℚ))
      linarith
    · have := Int.floor_le ((cw : ℚ) * (H : ℚ) / (W : ℚ))
      linarith
  have hfit1 : (W : ℚ) * shipScaleFactor W H cw ch ≤ (cw : ℚ) := by
    have hmin : shipScaleFactor W H cw ch ≤ (cw : ℚ) / (W : ℚ) := min_le_left _ _
    have := mul_le_mul_of_nonneg_left hmin hWq.le
    calc (W : ℚ) * shipScaleFactor W H cw ch
        ≤ (W : ℚ) * ((cw : ℚ) / (W : ℚ)) := this
      _ = (cw : ℚ) := by field_simp
  have hfit2 : (H : ℚ) * shipScaleFactor W H cw ch ≤ (ch : ℚ) := by
    have hmin : shipScaleFactor W H cw ch ≤ (ch : ℚ) / (H : ℚ) := min_le_right _ _
    have := mul_le_mul_of_nonneg_left hmin hHq.le
    calc (H : ℚ) * shipScaleFactor W H cw ch
        ≤ (H : ℚ) * ((ch : ℚ) / (H : ℚ)) := this
      _ = (ch : ℚ) := by field_simp
  have hdx : pyFloorDivQ |(W : ℚ) * shipScaleFactor W H cw ch - (cw : ℚ)| 2 =
      ((⌊((cw : ℚ) - (W : ℚ) * shipScaleFactor W H cw ch) / 2⌋ : ℤ) : ℚ) := by
    rw [pyFloorDivQ, abs_of_nonpos (by linarith), neg_sub]
  have hdy : pyFloorDivQ |(H : ℚ) * shipScaleFactor W H cw ch - (ch : ℚ)| 2 =
      ((⌊((ch : ℚ) - (H : ℚ) * shipScaleFactor W H cw ch) / 2⌋ : ℤ) : ℚ) := by
    rw [pyFloorDivQ, abs_of_nonpos (by linarith), neg_sub]
  refine ⟨hlabel, habs, hfit1, hfit2, ?_⟩
  unfold shipImagePaint
  rw [hlabel]
  show (if (H : Int) = 0 then Except.error PyError.zeroDivision else _) = _
  rw [if_neg (show ¬ (H : Int) = 0 from hH.ne')]
  simp only [Except.ok.injEq, Option.some.injEq, ShipPaint.mk.injEq]
  exact ⟨trivial, rfl, hdx, hdy, rfl, rfl, rfl⟩

/-- C5 witness: a 2×1 image with aspect (2, 1) painted at container width 4
draws and fixes height 2 = 4*1/2; a ShipImage in box (4, 1) scales by
min(4/2, 1/1) = 1, draws at the centering offsets (1, 0) and fixes the
widget height to the scaled image's height. -/
theorem c5_paint_witness :
    shipScaleFactor 2 1 4 1 = 1 ∧
    imageLabelPaint
      { p := { isNull := false, width := 2, height := 1 }, _w := 2, _h := 1 } 4 =
      Except.ok (some { rectW := 4, rectH := 2, fixedHeight := 2 }) ∧
    shipImagePaint (fun img _ => img)
      { p := { isNull := false, width := 2, height := 1 }, _w := 2, _h := 1 } 4 1 =
      Except.ok (some
        { labelPart := { rectW := 4, rectH := 2, fixedHeight := 2 }
          scale_factor := 1
          drawX := 1
          drawY := 0
          scaledWidthArg := 2
          scaledImage := { isNull := false, width := 2, height := 1 }
          fixedHeight := 1 }) := by
  obtain ⟨h1, _, _, _, h5⟩ := c5_paint_aspect_and_fit 2 1 4 1 (fun img _ => img)
    (by norm_num) (by norm_num) (by norm_num) (by norm_num)
  have hsf : shipScaleFactor 2 1 4 1 = 1 := by
    rw [shipScaleFactor]
    norm_num [min_def]
  refine ⟨hsf, ?_, ?_⟩
  · rw [h1]
    simp only [Except.ok.injEq, Option.some.injEq, LabelPaint.mk.injEq]
    norm_num
  · rw [h5, hsf]
    simp only [Except.ok.injEq, Option.some.injEq, ShipPaint.mk.injEq,
      LabelPaint.mk.injEq]
    norm_num
